import Mathlib

set_option maxRecDepth 100000

/-
Verification of the protocol layer of the `controller-fire` program
(src/main.rs): the MIDI-triplet event decoder (`ControllerEvent::from_midi`)
and the LED SysEx frame encoder (`FireController::init`, `set_led`,
`set_color_cube`, `update_leds`).

Bytes are modelled as `Nat` (the Rust code works on `u8`; every value the
claims quantify over lies below 256 and no arithmetic here overflows `u8`).
Rust panics (`unreachable!()`, `unwrap()` on a failed operation) are modelled
as `Except.error ()`; a normal return of `v` is `Except.ok v`.
-/

/-- Controller buttons, left-to-right, top-to-bottom, mirroring the Rust enum
`ControllerButton` (src/main.rs lines 36-63). -/
inductive ControllerButton where
  | Channel
  | PatternUp
  | PatternDown
  | Browser
  | GridLeft
  | GridRight
  | Row1
  | Row2
  | Row3
  | Row4
  | Step
  | Note
  | Drum
  | Perform
  | Shift
  | Alt
  | Pattern
  | Play
  | Stop
  | Record
  | Mystery
deriving DecidableEq, Repr, Fintype

/-- Mirrors the Rust enum `ControllerKnob`. -/
inductive ControllerKnob where
  | Volume
  | Pan
  | Filter
  | Resonance
  | Select
deriving DecidableEq, Repr, Fintype

/-- Mirrors the Rust enum `ButtonState`. -/
inductive ButtonState where
  | Down
  | Up
deriving DecidableEq, Repr, Fintype

/-- Mirrors the Rust enum `ControllerEvent`. `GridButton` fields are
(index, row0, col0, state, velocity). -/
inductive ControllerEvent where
  | ControlButton (b : ControllerButton) (s : ButtonState)
  | KnobTurn (k : ControllerKnob) (value : Nat)
  | KnobTouch (k : ControllerKnob) (s : ButtonState)
  | GridButton (index row0 col0 : Nat) (s : ButtonState) (velocity : Nat)
deriving DecidableEq, Repr

/-- Knob sub-code lookup inside the knob arm of `from_midi`: the Rust inner
`match kn` maps 0x10-0x13 and 0x19; every other value hits `unreachable!()`,
modelled as `none`. -/
def knobOf : Nat → Option ControllerKnob
  | 0x10 => some ControllerKnob.Volume
  | 0x11 => some ControllerKnob.Pan
  | 0x12 => some ControllerKnob.Filter
  | 0x13 => some ControllerKnob.Resonance
  | 0x19 => some ControllerKnob.Select
  | _ => none

/-- Labeled-button sub-code lookup inside the labeled-button arm of
`from_midi` (the Rust inner `match btn`), with the catch-all `Mystery`. -/
def buttonOf : Nat → ControllerButton
  | 0x1a => ControllerButton.Channel
  | 0x1f => ControllerButton.PatternUp
  | 0x20 => ControllerButton.PatternDown
  | 0x21 => ControllerButton.Browser
  | 0x22 => ControllerButton.GridLeft
  | 0x23 => ControllerButton.GridRight
  | 0x24 => ControllerButton.Row1
  | 0x25 => ControllerButton.Row2
  | 0x26 => ControllerButton.Row3
  | 0x27 => ControllerButton.Step
  | 0x2d => ControllerButton.Note
  | 0x2e => ControllerButton.Drum
  | 0x2f => ControllerButton.Perform
  | 0x30 => ControllerButton.Shift
  | 0x31 => ControllerButton.Alt
  | 0x32 => ControllerButton.Pattern
  | 0x33 => ControllerButton.Play
  | 0x34 => ControllerButton.Stop
  | 0x35 => ControllerButton.Record
  | _ => ControllerButton.Mystery

/-- The 19 data-1 codes the labeled-button arm maps explicitly (everything
else in 0x1a-0x35 falls to `Mystery`). -/
def mappedButtonCodes : List Nat :=
  [0x1a, 0x1f, 0x20, 0x21, 0x22, 0x23, 0x24, 0x25, 0x26, 0x27,
   0x2d, 0x2e, 0x2f, 0x30, 0x31, 0x32, 0x33, 0x34, 0x35]

/-- Embedding of `ControllerEvent::from_midi` (src/main.rs lines 90-157).
The Rust function matches a 3-byte slice `(msg[0], msg[1], msg[2])` against
the knob arm (status 0x90/0x80/0xB0, data1 0x10-0x19, where the knob lookup
precedes the status dispatch and hits `unreachable!()` on 0x14-0x18,
modelled as `Except.error ()`), the labeled-button arm (0x90/0x80,
0x1a-0x35), the grid arm (0x90/0x80, 0x36-0x75) and otherwise `None`;
non-3-byte messages give `None`. -/
def from_midi (msg : List Nat) : Except Unit (Option ControllerEvent) :=
  match msg with
  | [s, d1, d2] =>
    if (s = 0x90 ∨ s = 0x80 ∨ s = 0xb0) ∧ (0x10 ≤ d1 ∧ d1 ≤ 0x19) then
      match knobOf d1 with
      | none => Except.error ()
      | some knob =>
        if s = 0x90 then Except.ok (some (ControllerEvent.KnobTouch knob ButtonState.Down))
        else if s = 0x80 then Except.ok (some (ControllerEvent.KnobTouch knob ButtonState.Up))
        else Except.ok (some (ControllerEvent.KnobTurn knob d2))
    else if (s = 0x90 ∨ s = 0x80) ∧ (0x1a ≤ d1 ∧ d1 ≤ 0x35) then
      Except.ok (some (ControllerEvent.ControlButton (buttonOf d1)
        (if s = 0x90 then ButtonState.Down else ButtonState.Up)))
    else if (s = 0x90 ∨ s = 0x80) ∧ (0x36 ≤ d1 ∧ d1 ≤ 0x75) then
      Except.ok (some (ControllerEvent.GridButton (d1 - 0x36) ((d1 - 0x36) / 16)
        ((d1 - 0x36) % 16) (if s = 0x90 then ButtonState.Down else ButtonState.Up) d2))
    else Except.ok none
  | _ => Except.ok none

example : from_midi [0x90, 0x36, 0x64] =
    Except.ok (some (ControllerEvent.GridButton 0 0 0 ButtonState.Down 0x64)) := rfl

example : from_midi [0x90, 0x10, 0x7f] =
    Except.ok (some (ControllerEvent.KnobTouch ControllerKnob.Volume ButtonState.Down)) := rfl

example : from_midi [0xb0, 0x10, 0x40] =
    Except.ok (some (ControllerEvent.KnobTurn ControllerKnob.Volume 0x40)) := rfl

example : from_midi [0x90, 0x24, 0x00] =
    Except.ok (some (ControllerEvent.ControlButton ControllerButton.Row1 ButtonState.Down)) := rfl

example : from_midi [0x90, 0x36] = Except.ok none := rfl

/-- Helper: the labeled-button lookup never produces `Row4`. -/
theorem buttonOf_ne_Row4 (btn : Nat) : buttonOf btn ≠ ControllerButton.Row4 := by
  unfold buttonOf
  split <;> simp

/-- C1: the claim of totality fails in the code: on the 3-byte message
[0x90, 0x14, 0x00] (NoteOn status with the unassigned knob code 0x14, inside
the knob range 0x10-0x19) `from_midi` reaches the `unreachable!()` arm of the
knob lookup and panics, modelled as `Except.error ()`; it does not return
Some event or None. -/
theorem from_midi_panics_on_unassigned_knob :
    from_midi [0x90, 0x14, 0x00] = Except.error () := rfl

/-- C2: for a 3-byte message with status 0x90 or 0x80 and data1 in 0x36-0x75,
`from_midi` returns a GridButton with index = data1 - 0x36 (at most 63),
row = index div 16, col = index mod 16 (so row*16 + col = index), state Down
for 0x90 and Up for 0x80, and velocity exactly data2. -/
theorem from_midi_grid_button (s d1 d2 : Nat) (hs : s = 0x90 ∨ s = 0x80)
    (h1 : 0x36 ≤ d1) (h2 : d1 ≤ 0x75) :
    from_midi [s, d1, d2] =
      Except.ok (some (ControllerEvent.GridButton (d1 - 0x36) ((d1 - 0x36) / 16)
        ((d1 - 0x36) % 16) (if s = 0x90 then ButtonState.Down else ButtonState.Up) d2)) ∧
    d1 - 0x36 ≤ 63 ∧ ((d1 - 0x36) / 16) * 16 + (d1 - 0x36) % 16 = d1 - 0x36 := by
  refine ⟨?_, by omega, by omega⟩
  have hn1 : ¬((s = 0x90 ∨ s = 0x80 ∨ s = 0xb0) ∧ (0x10 ≤ d1 ∧ d1 ≤ 0x19)) := by
    rintro ⟨-, -, h⟩; omega
  have hn2 : ¬((s = 0x90 ∨ s = 0x80) ∧ (0x1a ≤ d1 ∧ d1 ≤ 0x35)) := by
    rintro ⟨-, -, h⟩; omega
  simp only [from_midi]
  rw [if_neg hn1, if_neg hn2, if_pos ⟨hs, h1, h2⟩]

/-- C2 witness: message [0x90, 0x4b, 0x21] decodes to pad index 21 = 0x4b -
0x36, row 1, col 5, state Down, velocity 0x21. -/
theorem from_midi_grid_button_witness :
    from_midi [0x90, 0x4b, 0x21] =
      Except.ok (some (ControllerEvent.GridButton 21 1 5 ButtonState.Down 0x21)) ∧
    (21 : Nat) ≤ 63 ∧ 21 / 16 * 16 + 21 % 16 = 21 :=
  from_midi_grid_button 0x90 0x4b 0x21 (Or.inl rfl) (by decide) (by decide)

/-- C7: a 3-byte message with status 0x90 or 0x80 and data1 in 0x1a-0x35 that
is not one of the 19 explicitly mapped labeled-button codes decodes to
ControlButton Mystery with state Down for 0x90 and Up for 0x80; it is never
dropped. -/
theorem from_midi_unmapped_button_mystery (s d1 d2 : Nat) (hs : s = 0x90 ∨ s = 0x80)
    (h1 : 0x1a ≤ d1) (h2 : d1 ≤ 0x35) (hm : d1 ∉ mappedButtonCodes) :
    from_midi [s, d1, d2] =
      Except.ok (some (ControllerEvent.ControlButton ControllerButton.Mystery
        (if s = 0x90 then ButtonState.Down else ButtonState.Up))) := by
  have hbtn : buttonOf d1 = ControllerButton.Mystery := by
    simp only [mappedButtonCodes, List.mem_cons, List.not_mem_nil, or_false] at hm
    unfold buttonOf
    split <;> simp_all
  have hn1 : ¬((s = 0x90 ∨ s = 0x80 ∨ s = 0xb0) ∧ (0x10 ≤ d1 ∧ d1 ≤ 0x19)) := by
    rintro ⟨-, -, h⟩; omega
  simp only [from_midi]
  rw [if_neg hn1, if_pos ⟨hs, h1, h2⟩, hbtn]

/-- C7 witness: [0x90, 0x1b, 0x00] has data1 = 0x1b inside 0x1a-0x35 but not
among the mapped codes, and decodes to ControlButton Mystery Down. -/
theorem from_midi_unmapped_button_mystery_witness :
    from_midi [0x90, 0x1b, 0x00] =
      Except.ok (some (ControllerEvent.ControlButton ControllerButton.Mystery
        ButtonState.Down)) :=
  from_midi_unmapped_button_mystery 0x90 0x1b 0x00 (Or.inl rfl) (by decide) (by decide)
    (by decide)

/-- C8 counterexample: ControllerButton does not have 20 variants. -/
theorem controllerButton_card_ne_twenty : Fintype.card ControllerButton ≠ 20 := by decide

/-- C8 amended: ControllerButton is a closed enumeration of exactly 20 named
button variants plus the Mystery fallback, 21 variants in total. -/
theorem controllerButton_card_eq_twentyone : Fintype.card ControllerButton = 21 := by decide

/-- C10: the decoder never returns a ControlButton event for Row4: the code
0x27 that follows the Row1-Row3 codes 0x24-0x26 maps to Step, and no data1
value maps to Row4, so Row4 is unreachable from `from_midi`. -/
theorem from_midi_never_row4 (msg : List Nat) (st : ButtonState) :
    from_midi msg ≠
      Except.ok (some (ControllerEvent.ControlButton ControllerButton.Row4 st)) := by
  intro h
  rcases msg with _ | ⟨s, _ | ⟨d1, _ | ⟨d2, _ | ⟨x, rest⟩⟩⟩⟩
  · exact Option.noConfusion (Except.ok.inj h)
  · exact Option.noConfusion (Except.ok.inj h)
  · exact Option.noConfusion (Except.ok.inj h)
  · simp only [from_midi] at h
    rcases hk : knobOf d1 with _ | knob <;> simp only [hk] at h <;> split_ifs at h <;>
      first
        | exact Except.noConfusion h
        | (simp only [Except.ok.injEq, Option.some.injEq,
             ControllerEvent.ControlButton.injEq] at h
           exact buttonOf_ne_Row4 d1 h.1)
        | simp at h
  · exact Option.noConfusion (Except.ok.inj h)

/-- C10 witness: the Step code 0x27 with NoteOn status does not decode to
Row4 Down. -/
theorem from_midi_never_row4_witness :
    from_midi [0x90, 0x27, 0x00] ≠
      Except.ok (some (ControllerEvent.ControlButton ControllerButton.Row4
        ButtonState.Down)) :=
  from_midi_never_row4 [0x90, 0x27, 0x00] ButtonState.Down

/-- Connection state of a controller (the Rust `ControllerState`; the
connection handles carried by `Connected` play no role in the protocol
layer). -/
inductive ControllerState where
  | Disconnected
  | Connected
deriving DecidableEq, Repr

/-- Embedding of `FireController::update_leds` (src/main.rs lines 276-280).
The Rust function returns unit: when connected it sends the frame and calls
`.unwrap()` on the send result, so a failed transmission panics (modelled as
`Except.error ()`); when disconnected it does nothing. `sendOk` says whether
the underlying `out_conn.send` succeeds. -/
def update_leds (st : ControllerState) (sendOk : Bool) : Except Unit Unit :=
  match st with
  | ControllerState.Connected => if sendOk then Except.ok () else Except.error ()
  | ControllerState.Disconnected => Except.ok ()

/-- Size of `led_msg_buf`: 7 header bytes + (4 bytes per grid led * 64 leds)
+ 1 end byte. -/
def BUF_LEN : Nat := 7 + 4 * 64 + 1

/-- The freshly constructed buffer `[0; 264]` from `attach_to_all`. -/
def zeroBuf : List Nat := List.replicate BUF_LEN 0

/-- Embedding of `FireController::init` (src/main.rs lines 244-255): writes
the header `F0 47 7F 43 65 lenHi lenLo` with len = 4*64 split as
`(len >> 7) & 0x7f` and `len & 0x7f`, then each pad entry's index byte at
position 7 + i*4 for i in 0..64, then the terminator 0xF7 at the last
position. -/
def init (buf : List Nat) : List Nat :=
  let len : Nat := 4 * 64
  let b0 := ((((((buf.set 0 0xf0).set 1 0x47).set 2 0x7f).set 3 0x43).set 4 0x65).set 5
    ((len >>> 7).land 0x7f)).set 6 (len.land 0x7f)
  let b1 := (List.range 64).foldl (fun b i => b.set (7 + i * 4) i) b0
  b1.set (b1.length - 1) 0xf7

/-- The frame as `attach_to_all` leaves it: `init` run on the zeroed buffer. -/
def initFrame : List Nat := init zeroBuf

/-- Embedding of `FireController::set_led` (src/main.rs lines 270-274):
writes the three color bytes of pad `i`, each clamped with `min(0x7f, _)`;
the index byte at 7 + i*4 is untouched. -/
def set_led (buf : List Nat) (i r g b : Nat) : List Nat :=
  ((buf.set (7 + i * 4 + 1) (min 0x7f r)).set
    (7 + i * 4 + 2) (min 0x7f g)).set
    (7 + i * 4 + 3) (min 0x7f b)

/-- Loop body of `FireController::set_color_cube` for pad `i`: x = i % 4,
y = i / 16, z = (i % 16) / 4, each scaled by 0x20 and clamped to 0x7f. -/
def cubeStep (buf : List Nat) (i : Nat) : List Nat :=
  ((buf.set (7 + i * 4 + 1) (min 0x7f (i % 4 * 0x20))).set
    (7 + i * 4 + 2) (min 0x7f (i / 16 * 0x20))).set
    (7 + i * 4 + 3) (min 0x7f (i % 16 / 4 * 0x20))

/-- Embedding of `FireController::set_color_cube` (src/main.rs lines
259-268): the `for i in 0..64` loop over `cubeStep`. -/
def set_color_cube (buf : List Nat) : List Nat :=
  (List.range 64).foldl cubeStep buf

example : initFrame.length = 264 := by decide

/-- C3 counterexample: when the controller is connected and the transmission
fails, `update_leds` panics (the `unwrap` on the send result), so the
failure is not surfaced as an explicit failure result the caller can observe
and handle: the Rust function returns unit and aborts instead. -/
theorem update_leds_send_failure_panics :
    update_leds ControllerState.Connected false = Except.error () := rfl

/-- C3 amended: a transmission failure during `update_leds` is never
silently swallowed, but it surfaces as a panic rather than as a handleable
result: `update_leds` panics exactly when the controller is connected and
the send fails, and otherwise returns unit, which carries no failure
information. -/
theorem update_leds_failure_panics_iff (st : ControllerState) (sendOk : Bool) :
    update_leds st sendOk = Except.error () ↔
      st = ControllerState.Connected ∧ sendOk = false := by
  cases st <;> cases sendOk <;> simp [update_leds]

/-- Helper: value of the red byte written by `set_led`. -/
theorem set_led_getElem?_r (buf : List Nat) (j r g b : Nat) :
    (set_led buf j r g b)[7 + j * 4 + 1]? =
      if 7 + j * 4 + 1 < buf.length then some (min 0x7f r) else none := by
  unfold set_led
  rw [List.getElem?_set_ne (by omega), List.getElem?_set_ne (by omega),
    List.getElem?_set]
  simp

/-- Helper: value of the green byte written by `set_led`. -/
theorem set_led_getElem?_g (buf : List Nat) (j r g b : Nat) :
    (set_led buf j r g b)[7 + j * 4 + 2]? =
      if 7 + j * 4 + 2 < buf.length then some (min 0x7f g) else none := by
  unfold set_led
  rw [List.getElem?_set_ne (by omega), List.getElem?_set]
  simp

/-- Helper: value of the blue byte written by `set_led`. -/
theorem set_led_getElem?_b (buf : List Nat) (j r g b : Nat) :
    (set_led buf j r g b)[7 + j * 4 + 3]? =
      if 7 + j * 4 + 3 < buf.length then some (min 0x7f b) else none := by
  unfold set_led
  rw [List.getElem?_set]
  simp

/-- Helper: `set_led` leaves every position other than its three color bytes
unchanged. -/
theorem set_led_getElem?_untouched (buf : List Nat) (j r g b p : Nat)
    (h1 : p ≠ 7 + j * 4 + 1) (h2 : p ≠ 7 + j * 4 + 2) (h3 : p ≠ 7 + j * 4 + 3) :
    (set_led buf j r g b)[p]? = buf[p]? := by
  unfold set_led
  rw [List.getElem?_set_ne (Ne.symm h3), List.getElem?_set_ne (Ne.symm h2),
    List.getElem?_set_ne (Ne.symm h1)]

/-- Helper: `set_led` preserves the buffer length. -/
theorem set_led_length (buf : List Nat) (j r g b : Nat) :
    (set_led buf j r g b).length = buf.length := by
  unfold set_led
  simp

/-- C4: for every pad index i in 0-63 and each color component passed to
`set_led` on a full-size frame, a component greater than 127 is stored as
127 and a component at most 127 is stored unmodified. -/
theorem set_led_clamps_colors (buf : List Nat) (i r g b : Nat)
    (hlen : buf.length = 264) (hi : i < 64) :
    (set_led buf i r g b)[7 + i * 4 + 1]? = some (if 127 < r then 127 else r) ∧
    (set_led buf i r g b)[7 + i * 4 + 2]? = some (if 127 < g then 127 else g) ∧
    (set_led buf i r g b)[7 + i * 4 + 3]? = some (if 127 < b then 127 else b) := by
  have e : ∀ c : Nat, min 0x7f c = if 127 < c then 127 else c := by
    intro c
    rw [Nat.min_def]
    split <;> split <;> omega
  refine ⟨?_, ?_, ?_⟩
  · rw [set_led_getElem?_r, if_pos (by omega), e]
  · rw [set_led_getElem?_g, if_pos (by omega), e]
  · rw [set_led_getElem?_b, if_pos (by omega), e]

/-- C4 witness: on the initialized frame, pad 2 with (r, g, b) =
(200, 7, 127) stores (127, 7, 127). -/
theorem set_led_clamps_colors_witness :
    (set_led initFrame 2 200 7 127)[7 + 2 * 4 + 1]? = some 127 ∧
    (set_led initFrame 2 200 7 127)[7 + 2 * 4 + 2]? = some 7 ∧
    (set_led initFrame 2 200 7 127)[7 + 2 * 4 + 3]? = some 127 :=
  set_led_clamps_colors initFrame 2 200 7 127 (by decide) (by decide)

/-- C5: immediately after `init`, byte 0 is 0xF0, bytes 1-4 are
47 7F 43 65, bytes 5 and 6 are the 14-bit payload length 256 split as
(256 >> 7) & 0x7F = 2 and 256 & 0x7F = 0, the byte at position 7 + 4*i
equals i for every i in 0-63, and the final byte at position 263 is 0xF7. -/
theorem init_frame_layout :
    initFrame[0]? = some 0xf0 ∧ initFrame[1]? = some 0x47 ∧
    initFrame[2]? = some 0x7f ∧ initFrame[3]? = some 0x43 ∧
    initFrame[4]? = some 0x65 ∧
    initFrame[5]? = some ((256 >>> 7).land 0x7f) ∧ (256 >>> 7).land 0x7f = 2 ∧
    initFrame[6]? = some ((256 : Nat).land 0x7f) ∧ (256 : Nat).land 0x7f = 0 ∧
    (∀ i : Fin 64, initFrame[7 + 4 * i.val]? = some i.val) ∧
    initFrame[263]? = some 0xf7 := by decide

/-- The frame invariant claimed by the spec: full length, the 7 header bytes
and the terminator as `init` wrote them, each pad entry's index byte at
7 + 4*i equal to i, and every stored color byte at most 127. -/
def FrameInv (buf : List Nat) : Prop :=
  buf.length = 264 ∧
  buf[0]? = some 0xf0 ∧ buf[1]? = some 0x47 ∧ buf[2]? = some 0x7f ∧
  buf[3]? = some 0x43 ∧ buf[4]? = some 0x65 ∧ buf[5]? = some 2 ∧
  buf[6]? = some 0 ∧ buf[263]? = some 0xf7 ∧
  (∀ i : Fin 64, buf[7 + 4 * i.val]? = some i.val) ∧
  (∀ i : Fin 64, ∀ k : Fin 3, (buf[7 + 4 * i.val + (k.val + 1)]?).getD 255 ≤ 127)

/-- Frame states reachable from the initialized frame by any sequence of
`set_led` calls with pad index 0-63 (and u8 color components) and
`set_color_cube` calls. -/
inductive ReachableFrame : List Nat → Prop where
  | init : ReachableFrame initFrame
  | led (buf : List Nat) (i r g b : Nat) (hi : i < 64) (hr : r < 256)
      (hg : g < 256) (hb : b < 256) (h : ReachableFrame buf) :
      ReachableFrame (set_led buf i r g b)
  | cube (buf : List Nat) (h : ReachableFrame buf) :
      ReachableFrame (set_color_cube buf)

/-- Helper: the initialized frame satisfies the invariant. -/
theorem frameInv_initFrame : FrameInv initFrame := by
  unfold FrameInv
  decide

/-- Helper: `set_led` with a pad index below 64 preserves the invariant. -/
theorem frameInv_set_led (buf : List Nat) (j r g b : Nat) (hj : j < 64)
    (h : FrameInv buf) : FrameInv (set_led buf j r g b) := by
  obtain ⟨hlen, h0, h1, h2, h3, h4, h5, h6, hterm, hidx, hcol⟩ := h
  refine ⟨by rw [set_led_length]; exact hlen, ?_, ?_, ?_, ?_, ?_, ?_, ?_, ?_, ?_, ?_⟩
  · rw [set_led_getElem?_untouched buf j r g b 0 (by omega) (by omega) (by omega)]
    exact h0
  · rw [set_led_getElem?_untouched buf j r g b 1 (by omega) (by omega) (by omega)]
    exact h1
  · rw [set_led_getElem?_untouched buf j r g b 2 (by omega) (by omega) (by omega)]
    exact h2
  · rw [set_led_getElem?_untouched buf j r g b 3 (by omega) (by omega) (by omega)]
    exact h3
  · rw [set_led_getElem?_untouched buf j r g b 4 (by omega) (by omega) (by omega)]
    exact h4
  · rw [set_led_getElem?_untouched buf j r g b 5 (by omega) (by omega) (by omega)]
    exact h5
  · rw [set_led_getElem?_untouched buf j r g b 6 (by omega) (by omega) (by omega)]
    exact h6
  · rw [set_led_getElem?_untouched buf j r g b 263 (by omega) (by omega) (by omega)]
    exact hterm
  · intro i
    rw [set_led_getElem?_untouched buf j r g b (7 + 4 * i.val) (by omega) (by omega)
      (by omega)]
    exact hidx i
  · intro i k
    have hk := k.isLt
    by_cases e1 : 7 + 4 * i.val + (k.val + 1) = 7 + j * 4 + 1
    · rw [e1, set_led_getElem?_r, if_pos (by omega)]
      simp only [Option.getD_some]
      exact Nat.min_le_left 0x7f r
    · by_cases e2 : 7 + 4 * i.val + (k.val + 1) = 7 + j * 4 + 2
      · rw [e2, set_led_getElem?_g, if_pos (by omega)]
        simp only [Option.getD_some]
        exact Nat.min_le_left 0x7f g
      · by_cases e3 : 7 + 4 * i.val + (k.val + 1) = 7 + j * 4 + 3
        · rw [e3, set_led_getElem?_b, if_pos (by omega)]
          simp only [Option.getD_some]
          exact Nat.min_le_left 0x7f b
        · rw [set_led_getElem?_untouched buf j r g b _ e1 e2 e3]
          exact hcol i k

/-- Helper: `cubeStep` is `set_led` applied to the cube pattern values. -/
theorem cubeStep_eq_set_led (buf : List Nat) (i : Nat) :
    cubeStep buf i = set_led buf i (i % 4 * 0x20) (i / 16 * 0x20) (i % 16 / 4 * 0x20) := rfl

/-- Helper: folding `cubeStep` over in-range pads preserves the invariant. -/
theorem frameInv_foldl_cubeStep (l : List Nat) (hl : ∀ x ∈ l, x < 64) :
    ∀ buf, FrameInv buf → FrameInv (l.foldl cubeStep buf) := by
  induction l with
  | nil => exact fun buf h => h
  | cons x xs ih =>
    intro buf h
    rw [List.foldl_cons, cubeStep_eq_set_led]
    exact ih (fun y hy => hl y (List.mem_cons_of_mem x hy)) _
      (frameInv_set_led buf x _ _ _ (hl x (List.mem_cons_self x xs)) h)

/-- Helper: `set_color_cube` preserves the invariant. -/
theorem frameInv_set_color_cube (buf : List Nat) (h : FrameInv buf) :
    FrameInv (set_color_cube buf) :=
  frameInv_foldl_cubeStep (List.range 64) (fun _ hx => List.mem_range.mp hx) buf h

/-- C6: every frame reachable from the initialized frame by `set_led` calls
with pad index 0-63 and `set_color_cube` calls keeps its length, its 7
header bytes and terminator unchanged, each pad entry's index byte at
7 + 4*i still equal to i, and every stored color byte in 0-127. -/
theorem reachable_frame_invariant (buf : List Nat) (h : ReachableFrame buf) :
    FrameInv buf := by
  induction h with
  | init => exact frameInv_initFrame
  | led b i r g b' hi hr hg hb hprev ih => exact frameInv_set_led b i r g b' hi ih
  | cube b hprev ih => exact frameInv_set_color_cube b ih

/-- C6 witness: the invariant holds at the concrete reachable frame obtained
by one `set_led` on the initialized frame. -/
theorem reachable_frame_invariant_witness :
    FrameInv (set_led initFrame 3 200 50 1) :=
  reachable_frame_invariant _
    (ReachableFrame.led initFrame 3 200 50 1 (by decide) (by decide) (by decide)
      (by decide) ReachableFrame.init)

/-- Helper: `cubeStep` preserves the buffer length. -/
theorem cubeStep_length (buf : List Nat) (i : Nat) :
    (cubeStep buf i).length = buf.length := by
  rw [cubeStep_eq_set_led, set_led_length]

/-- Helper: folding `cubeStep` preserves the buffer length. -/
theorem foldl_cubeStep_length (l : List Nat) :
    ∀ buf : List Nat, (l.foldl cubeStep buf).length = buf.length := by
  induction l with
  | nil => intro buf; rfl
  | cons x xs ih =>
    intro buf
    rw [List.foldl_cons, ih, cubeStep_length]

/-- Helper: `set_color_cube` preserves the buffer length. -/
theorem set_color_cube_length (buf : List Nat) :
    (set_color_cube buf).length = buf.length :=
  foldl_cubeStep_length (List.range 64) buf

/-- Helper: folding `cubeStep` over pads whose color bytes all differ from
position p leaves position p unchanged. -/
theorem foldl_cubeStep_untouched (l : List Nat) (p : Nat)
    (hp : ∀ x ∈ l, p ≠ 7 + x * 4 + 1 ∧ p ≠ 7 + x * 4 + 2 ∧ p ≠ 7 + x * 4 + 3) :
    ∀ buf : List Nat, (l.foldl cubeStep buf)[p]? = buf[p]? := by
  induction l with
  | nil => intro buf; rfl
  | cons x xs ih =>
    intro buf
    obtain ⟨h1, h2, h3⟩ := hp x (List.mem_cons_self x xs)
    rw [List.foldl_cons, ih (fun y hy => hp y (List.mem_cons_of_mem x hy)),
      cubeStep_eq_set_led]
    exact set_led_getElem?_untouched buf x _ _ _ p h1 h2 h3

/-- Helper: after folding `cubeStep` over `range n`, the three color bytes
of each pad i < n hold the clamped cube pattern values. -/
theorem foldl_cubeStep_written (n : Nat) :
    ∀ buf : List Nat, ∀ i, i < n →
      ((List.range n).foldl cubeStep buf)[7 + i * 4 + 1]? =
        (if 7 + i * 4 + 1 < buf.length then some (min 0x7f (i % 4 * 0x20)) else none) ∧
      ((List.range n).foldl cubeStep buf)[7 + i * 4 + 2]? =
        (if 7 + i * 4 + 2 < buf.length then some (min 0x7f (i / 16 * 0x20)) else none) ∧
      ((List.range n).foldl cubeStep buf)[7 + i * 4 + 3]? =
        (if 7 + i * 4 + 3 < buf.length then some (min 0x7f (i % 16 / 4 * 0x20)) else none) := by
  induction n with
  | zero => intro buf i hi; exact absurd hi (Nat.not_lt_zero i)
  | succ n ih =>
    intro buf i hi
    rw [List.range_succ, List.foldl_append, List.foldl_cons, List.foldl_nil,
      cubeStep_eq_set_led]
    rcases Nat.lt_succ_iff_lt_or_eq.mp hi with hlt | rfl
    · refine ⟨?_, ?_, ?_⟩
      · rw [set_led_getElem?_untouched ((List.range n).foldl cubeStep buf) n
          (n % 4 * 0x20) (n / 16 * 0x20) (n % 16 / 4 * 0x20) (7 + i * 4 + 1)
          (by omega) (by omega) (by omega)]
        exact (ih buf i hlt).1
      · rw [set_led_getElem?_untouched ((List.range n).foldl cubeStep buf) n
          (n % 4 * 0x20) (n / 16 * 0x20) (n % 16 / 4 * 0x20) (7 + i * 4 + 2)
          (by omega) (by omega) (by omega)]
        exact (ih buf i hlt).2.1
      · rw [set_led_getElem?_untouched ((List.range n).foldl cubeStep buf) n
          (n % 4 * 0x20) (n / 16 * 0x20) (n % 16 / 4 * 0x20) (7 + i * 4 + 3)
          (by omega) (by omega) (by omega)]
        exact (ih buf i hlt).2.2
    · refine ⟨?_, ?_, ?_⟩
      · rw [set_led_getElem?_r, foldl_cubeStep_length]
      · rw [set_led_getElem?_g, foldl_cubeStep_length]
      · rw [set_led_getElem?_b, foldl_cubeStep_length]

/-- Helper: the color bytes `set_color_cube` gives each pad. -/
theorem set_color_cube_written (buf : List Nat) (i : Nat) (hi : i < 64) :
    (set_color_cube buf)[7 + i * 4 + 1]? =
      (if 7 + i * 4 + 1 < buf.length then some (min 0x7f (i % 4 * 0x20)) else none) ∧
    (set_color_cube buf)[7 + i * 4 + 2]? =
      (if 7 + i * 4 + 2 < buf.length then some (min 0x7f (i / 16 * 0x20)) else none) ∧
    (set_color_cube buf)[7 + i * 4 + 3]? =
      (if 7 + i * 4 + 3 < buf.length then some (min 0x7f (i % 16 / 4 * 0x20)) else none) :=
  foldl_cubeStep_written 64 buf i hi

/-- Helper: `set_color_cube` leaves positions outside every pad's color
bytes unchanged. -/
theorem set_color_cube_untouched (buf : List Nat) (p : Nat)
    (hp : ∀ x, x < 64 → p ≠ 7 + x * 4 + 1 ∧ p ≠ 7 + x * 4 + 2 ∧ p ≠ 7 + x * 4 + 3) :
    (set_color_cube buf)[p]? = buf[p]? :=
  foldl_cubeStep_untouched (List.range 64) p
    (fun x hx => hp x (List.mem_range.mp hx)) buf

/-- Helper: idempotence of `set_color_cube`: the second run rewrites every
color byte with the same value computed from the pad index alone, and
touches nothing else. -/
theorem set_color_cube_idem (buf : List Nat) :
    set_color_cube (set_color_cube buf) = set_color_cube buf := by
  apply List.ext_getElem?
  intro p
  by_cases hp : ∃ i, i < 64 ∧ (p = 7 + i * 4 + 1 ∨ p = 7 + i * 4 + 2 ∨ p = 7 + i * 4 + 3)
  · obtain ⟨i, hi, hc⟩ := hp
    have w1 := set_color_cube_written buf i hi
    have w2 := set_color_cube_written (set_color_cube buf) i hi
    rcases hc with rfl | rfl | rfl
    · rw [w2.1, w1.1, set_color_cube_length]
    · rw [w2.2.1, w1.2.1, set_color_cube_length]
    · rw [w2.2.2, w1.2.2, set_color_cube_length]
  · push_neg at hp
    rw [set_color_cube_untouched (set_color_cube buf) p hp]

/-- C9: `set_color_cube` is idempotent — applying it twice yields a frame
byte-identical to applying it once — and on a full-size frame each pad i
receives the colors (min(127, (i mod 4)*32), min(127, (i div 16)*32),
min(127, ((i mod 16) div 4)*32)). -/
theorem set_color_cube_idempotent_and_colors :
    (∀ buf : List Nat, set_color_cube (set_color_cube buf) = set_color_cube buf) ∧
    (∀ buf : List Nat, buf.length = 264 → ∀ i : Fin 64,
      (set_color_cube buf)[7 + i.val * 4 + 1]? = some (min 127 (i.val % 4 * 32)) ∧
      (set_color_cube buf)[7 + i.val * 4 + 2]? = some (min 127 (i.val / 16 * 32)) ∧
      (set_color_cube buf)[7 + i.val * 4 + 3]? = some (min 127 (i.val % 16 / 4 * 32))) := by
  refine ⟨set_color_cube_idem, ?_⟩
  intro buf hlen i
  have hi := i.isLt
  have w := set_color_cube_written buf i.val hi
  refine ⟨?_, ?_, ?_⟩
  · rw [w.1, if_pos (by omega)]
  · rw [w.2.1, if_pos (by omega)]
  · rw [w.2.2, if_pos (by omega)]

/-- C9 witness: on the zeroed full-size buffer, two runs agree byte for
byte, and pad 5 receives colors (min 127 32, 0, min 127 32). -/
theorem set_color_cube_idempotent_and_colors_witness :
    set_color_cube (set_color_cube zeroBuf) = set_color_cube zeroBuf ∧
    (set_color_cube zeroBuf)[7 + 5 * 4 + 1]? = some (min 127 (5 % 4 * 32)) ∧
    (set_color_cube zeroBuf)[7 + 5 * 4 + 2]? = some (min 127 (5 / 16 * 32)) ∧
    (set_color_cube zeroBuf)[7 + 5 * 4 + 3]? = some (min 127 (5 % 16 / 4 * 32)) :=
  ⟨set_color_cube_idempotent_and_colors.1 zeroBuf,
   set_color_cube_idempotent_and_colors.2 zeroBuf (by decide) ⟨5, by decide⟩⟩
